import Mathlib

/-
  Verification development for the comment-server repository.

  The embedding translates the two source files:
  - src/database/ddl.py : the peewee data model (Channel, Comment), the field
    registry FIELDS, the projection/pagination query engine comment_list, and
    the derived read operations.
  - src/handles.py : the RPC dispatcher (process_json / api_endpoint) and the
    delete gateway (delete_comment_if_authorized).

  Storage is modelled as explicit lists of rows; SQL queries become list
  filtering, sorting and slicing; Python exceptions become an explicit
  Except-typed error channel (PyErr).
-/

namespace CommentServer

/-- A JSON-style value as produced by peewee query .dicts() rows: SQL NULL,
strings, integers and booleans. -/
inductive JVal where
  | null
  | s (v : String)
  | i (v : Int)
  | b (v : Bool)
deriving DecidableEq, Repr

/-- A materialized result row: an association list from field name to value,
mirroring a Python dict built by query.dicts(). -/
abbrev Item := List (String × JVal)

/-- Channel model (ddl.py class Channel): claim_id primary key, display name. -/
structure Channel where
  claim_id : String
  name : String
deriving DecidableEq, Repr

/-- Comment model (ddl.py class Comment). Nullable columns are Options:
channel (FK to Channel.claim_id), parent (self FK to comment_id), signature,
signing_ts. timestamp is an IntegerField. -/
structure Comment where
  comment : String
  channel_id : Option String
  comment_id : String
  is_hidden : Bool
  claim_id : String
  parent_id : Option String
  signature : Option String
  signing_ts : Option String
  timestamp : Int
deriving DecidableEq, Repr

/-- The Python exception classes that the translated code can raise. -/
inductive PyErr where
  | typeError
  | valueError
  | keyError
  | indexError
  | attributeError
  | zeroDivisionError
deriving DecidableEq, Repr

/-- The key set of the FIELDS registry (ddl.py FIELDS dict), in declaration
order. -/
def FIELDS_KEYS : List String :=
  ["comment", "comment_id", "claim_id", "timestamp", "signature", "signing_ts",
   "is_hidden", "parent_id", "channel_id", "channel_name", "channel_url"]

/-- The attribute names of the Comment model itself, in declaration order.
When comment_list ends up calling Comment.select() with an empty attribute
list, peewee selects every column defined on the model, and query.dicts()
keys the row by these field names. -/
def MODEL_FIELD_NAMES : List String :=
  ["comment", "channel", "comment_id", "is_hidden", "claim_id", "parent",
   "signature", "signing_ts", "timestamp"]

/-- Python truthiness of an optional string argument: None and the empty
string are falsy. -/
def truthyStr : Option String → Bool
  | none => false
  | some st => !st.isEmpty

/-- Python truthiness of an optional list argument: None and the empty list
are falsy. -/
def truthyList : Option (List String) → Bool
  | none => false
  | some l => !l.isEmpty

/-- The LEFT OUTER join of a comment against the Channel table on
Comment.channel == Channel.claim_id. -/
def lookup_channel (channels : List Channel) (c : Comment) : Option Channel :=
  c.channel_id.bind (fun cid => channels.find? (fun ch => ch.claim_id == cid))

/-- Lift a nullable column value to a row value. -/
def optStr : Option String → JVal
  | none => JVal.null
  | some v => JVal.s v

/-- The value stored under each selectable field name for one comment row,
after the left outer join with Channel. Covers both the registry names of
FIELDS (with their aliases) and the raw model field names used by the
empty-projection fallback. channel_url is the SQL concatenation
the literal lbry:// followed by the channel name, a hash mark and the
channel claim id, which is NULL when the
join produced no channel row. -/
def fieldValue (channels : List Channel) (c : Comment) : String → JVal
  | "comment" => JVal.s c.comment
  | "comment_id" => JVal.s c.comment_id
  | "claim_id" => JVal.s c.claim_id
  | "timestamp" => JVal.i c.timestamp
  | "signature" => optStr c.signature
  | "signing_ts" => optStr c.signing_ts
  | "is_hidden" => JVal.b c.is_hidden
  | "parent_id" => optStr c.parent_id
  | "channel_id" =>
    match lookup_channel channels c with
    | some ch => JVal.s ch.claim_id
    | none => JVal.null
  | "channel_name" =>
    match lookup_channel channels c with
    | some ch => JVal.s ch.name
    | none => JVal.null
  | "channel_url" =>
    match lookup_channel channels c with
    | some ch => JVal.s ("lbry://" ++ ch.name ++ "#" ++ ch.claim_id)
    | none => JVal.null
  | "channel" => optStr c.channel_id
  | "parent" => optStr c.parent_id
  | _ => JVal.null

/-- The exclusion step of comment_list (ddl.py lines 86-88): fields =
FIELDS.keys(); if exclude_fields: fields -= set(exclude_fields). The Python
truthiness test skips the subtraction for None and for an empty list. -/
def exclude_step (exclude_fields : Option (List String)) : List String :=
  if truthyList exclude_fields then
    FIELDS_KEYS.filter (fun f => !(exclude_fields.getD []).contains f)
  else FIELDS_KEYS

/-- The inclusion step of comment_list (ddl.py lines 89-90): if
select_fields: fields &= set(select_fields), applied after the exclusion
step; again a None or empty list skips the intersection. -/
def selected_fields (select_fields exclude_fields : Option (List String)) :
    List String :=
  if truthyList select_fields then
    (exclude_step exclude_fields).filter
      (fun f => (select_fields.getD []).contains f)
  else exclude_step exclude_fields

/-- The keys actually projected by the built query. When the surviving field
set is empty, attributes = [] and Comment.select() with no arguments selects
every column defined on the Comment model (peewee default), so the row keys
become the model field names. -/
def projected_keys (select_fields exclude_fields : Option (List String)) :
    List String :=
  if (selected_fields select_fields exclude_fields).isEmpty then
    MODEL_FIELD_NAMES
  else selected_fields select_fields exclude_fields

/-- clean (ddl.py line 128): drop every key whose value is None. -/
def clean (thing : Item) : Item :=
  thing.filter (fun kv => !(kv.2 == JVal.null))

/-- Materialize one row: project the chosen keys and drop null values. -/
def item_for (channels : List Channel) (keys : List String) (c : Comment) :
    Item :=
  clean (keys.map (fun k => (k, fieldValue channels c k)))

/-- The WHERE clauses of comment_list other than the parent_id one (which
raises before any filtering, see comment_list): exact claim_id match with
the nested top_level parent-is-null clause, the exclude_mode visibility
clause, and the extra programmatic expression. Clauses compose by AND. -/
def matches_filters (claim_id : Option String) (top_level : Bool)
    (exclude_mode : Option String) (expressions : Option (Comment → Bool))
    (c : Comment) : Bool :=
  (if truthyStr claim_id then
      c.claim_id == claim_id.getD "" &&
        (if top_level then c.parent_id.isNone else true)
    else true) &&
  (if truthyStr exclude_mode then
      c.is_hidden == ((exclude_mode.getD "").toLower == "hidden")
    else true) &&
  (match expressions with
    | some p => p c
    | none => true)

/-- Insert a comment into a list kept in descending timestamp order. -/
def insert_desc (c : Comment) : List Comment → List Comment
  | [] => [c]
  | d :: ds =>
    if d.timestamp ≤ c.timestamp then c :: d :: ds
    else d :: insert_desc c ds

/-- ORDER BY Comment.timestamp DESC. -/
def order_by_timestamp_desc (l : List Comment) : List Comment :=
  l.foldr insert_desc []

/-- The result envelope of comment_list (ddl.py lines 117-124). -/
structure Envelope where
  page : Nat
  page_size : Nat
  total_pages : Nat
  total_items : Nat
  items : List Item
  has_hidden_comments : Bool
deriving DecidableEq, Repr

/-- The successful result of comment_list: count the filtered rows before
the join, then paginate (OFFSET (page-1)*page_size LIMIT page_size) the
rows ordered by descending timestamp, materialize the projected keys with
nulls dropped, and assemble the metadata. total_pages is
math.ceil(total / page_size); has_hidden_comments is
(exclude_mode is not None and exclude_mode == hidden). -/
def build_envelope (store : List Comment) (channels : List Channel)
    (claim_id : Option String) (top_level : Bool) (exclude_mode : Option String)
    (page page_size : Nat) (expressions : Option (Comment → Bool))
    (select_fields exclude_fields : Option (List String)) : Envelope :=
  let rows := store.filter (matches_filters claim_id top_level exclude_mode expressions)
  { page := page
    page_size := page_size
    total_pages := (rows.length + page_size - 1) / page_size
    total_items := rows.length
    items :=
      (((order_by_timestamp_desc rows).drop ((page - 1) * page_size)).take page_size).map
        (item_for channels (projected_keys select_fields exclude_fields))
    has_hidden_comments := exclude_mode.isSome && (exclude_mode == some "hidden") }

/-- comment_list (ddl.py lines 82-125). Two execution paths raise instead of
returning: a truthy parent_id evaluates Comment.ParentId (line 101), an
attribute that does not exist on the Comment model (the field is named
parent), so Python raises AttributeError before the query runs; and a zero
page_size makes math.ceil(total / page_size) raise ZeroDivisionError while
the result dict is being built. All remaining paths return the envelope. -/
def comment_list (store : List Comment) (channels : List Channel)
    (claim_id parent_id : Option String) (top_level : Bool)
    (exclude_mode : Option String) (page page_size : Nat)
    (expressions : Option (Comment → Bool))
    (select_fields exclude_fields : Option (List String)) :
    Except PyErr Envelope :=
  if truthyStr parent_id then Except.error PyErr.attributeError
  else if page_size == 0 then Except.error PyErr.zeroDivisionError
  else Except.ok (build_envelope store channels claim_id top_level exclude_mode
    page page_size expressions select_fields exclude_fields)

/-- get_comment (ddl.py lines 132-135): a single-row query by comment_id with
page_size 1, then popping the last element of the items list. Python
list.pop() raises IndexError on an empty list. -/
def get_comment (store : List Comment) (channels : List Channel)
    (comment_id : String) : Except PyErr Item :=
  match comment_list store channels none none false none 1 1
      (some (fun c => c.comment_id == comment_id)) none none with
  | Except.error e => Except.error e
  | Except.ok env =>
    match env.items.getLast? with
    | none => Except.error PyErr.indexError
    | some it => Except.ok it

/-- Look a key up in a materialized row, as Python dict subscripting would. -/
def item_lookup (it : Item) (k : String) : Option JVal :=
  (it.find? (fun kv => kv.1 == k)).map (fun kv => kv.2)

/-- The envelope after get_comment_ids applies its flattened update: items
replaced by the comment_id column and a replies list of
(comment_id, parent_id-or-null) pairs. -/
structure FlatEnvelope where
  page : Nat
  page_size : Nat
  total_pages : Nat
  total_items : Nat
  has_hidden_comments : Bool
  items : List JVal
  replies : List (JVal × JVal)
deriving DecidableEq, Repr

/-- Sequence a fallible map over a list, stopping at the first error, the way
a Python list comprehension propagates an exception from an element. -/
def exceptMapList (f : α → Except PyErr β) : List α → Except PyErr (List β)
  | [] => Except.ok []
  | a :: as =>
    match f a with
    | Except.error e => Except.error e
    | Except.ok b =>
      match exceptMapList f as with
      | Except.error e => Except.error e
      | Except.ok bs => Except.ok (b :: bs)

/-- get_comment_ids (ddl.py lines 138-151): calls comment_list with
top_level = (parent_id is None) and the fixed projection
of comment_id and parent_id; with flattened it rebuilds items as the
comment_id values (dict subscripting, KeyError if absent) and adds replies
as pairs of the comment_id entry and the parent_id entry looked up with
.get, whose default is None. -/
def get_comment_ids (store : List Comment) (channels : List Channel)
    (claim_id parent_id : Option String) (page page_size : Nat)
    (flattened : Bool) : Except PyErr (Envelope ⊕ FlatEnvelope) :=
  match comment_list store channels claim_id parent_id parent_id.isNone none
      page page_size none (some ["comment_id", "parent_id"]) none with
  | Except.error e => Except.error e
  | Except.ok env =>
    if flattened then
      match exceptMapList (fun it =>
          match item_lookup it "comment_id" with
          | some v => Except.ok v
          | none => Except.error PyErr.keyError) env.items with
      | Except.error e => Except.error e
      | Except.ok ids =>
        match exceptMapList (fun it =>
            match item_lookup it "comment_id" with
            | some v => Except.ok (v, (item_lookup it "parent_id").getD JVal.null)
            | none => Except.error PyErr.keyError) env.items with
        | Except.error e => Except.error e
        | Except.ok reps =>
          Except.ok (Sum.inr
            { page := env.page
              page_size := env.page_size
              total_pages := env.total_pages
              total_items := env.total_items
              has_hidden_comments := env.has_hidden_comments
              items := ids
              replies := reps })
    else Except.ok (Sum.inl env)

/-- get_comments_by_id (ddl.py lines 154-156): membership filter over the
requested identifiers with page_size = len(comment_ids). -/
def get_comments_by_id (store : List Comment) (channels : List Channel)
    (comment_ids : List String) : Except PyErr Envelope :=
  comment_list store channels none none false none 1 comment_ids.length
    (some (fun c => comment_ids.contains c.comment_id)) none none

/-- get_channel_from_comment_id (ddl.py lines 159-165): single-row query
projected to the channel-derived fields, then .pop() on items. -/
def get_channel_from_comment_id (store : List Comment)
    (channels : List Channel) (comment_id : String) : Except PyErr Item :=
  match comment_list store channels none none false none 1 1
      (some (fun c => c.comment_id == comment_id))
      (some ["channel_name", "channel_id", "channel_url"]) none with
  | Except.error e => Except.error e
  | Except.ok env =>
    match env.items.getLast? with
    | none => Except.error PyErr.indexError
    | some it => Except.ok it

/-- Modelled from the spec: the ERRORS table lives in the misc module, which
is not among the given sources; section 7 of the spec fixes the protocol
error taxonomy it contains. -/
inductive ErrCode where
  | PARSE_ERROR
  | INVALID_REQUEST
  | METHOD_NOT_FOUND
  | INVALID_PARAMS
  | INTERNAL
deriving DecidableEq, Repr

/-- The METHODS registry keys of handles.py lines 70-78. -/
def METHODS_NAMES : List String :=
  ["ping", "get_claim_comments", "get_comment_ids", "get_comments_by_id",
   "get_channel_from_comment_id", "create_comment", "delete_comment"]

/-- The exception classification of process_json (handles.py lines 93-101):
TypeError and ValueError become INVALID_PARAMS, every other exception
becomes INTERNAL. -/
def classify : PyErr → ErrCode
  | PyErr.typeError => ErrCode.INVALID_PARAMS
  | PyErr.valueError => ErrCode.INVALID_PARAMS
  | _ => ErrCode.INTERNAL

/-- A decoded JSON object arriving as a request body: the optional id and
method entries (none models an absent dict key) and the optional params
value, kept opaque. -/
structure RawReq where
  id : Option JVal
  method : Option String
  params : Option JVal
deriving DecidableEq, Repr

/-- A response envelope. The jsonrpc marker is absent on the error responses
that api_endpoint builds itself, which carry only an error entry. -/
structure Response where
  jsonrpc : Option String
  id : Option JVal
  result : Option JVal
  error : Option ErrCode
deriving DecidableEq, Repr

/-- process_json (handles.py lines 81-104), parameterized by exec, the
outcome of invoking METHODS[method](app, params) (which abstracts the
handlers, the storage they read and the external clean_input_params
normalization, modelled as non-raising per the collaborator contract of
the spec). The id and method subscripts of body are evaluated outside the
try-block, so an absent key raises KeyError out of the function; handler
exceptions are caught and classified. -/
def process_json (exec : String → Option JVal → Except PyErr JVal)
    (body : RawReq) : Except PyErr Response :=
  match body.id with
  | none => Except.error PyErr.keyError
  | some i =>
    match body.method with
    | none => Except.error PyErr.keyError
    | some m =>
      if METHODS_NAMES.contains m then
        match exec m body.params with
        | Except.ok r =>
          Except.ok { jsonrpc := some "2.0", id := some i, result := some r, error := none }
        | Except.error e =>
          Except.ok { jsonrpc := some "2.0", id := some i, result := none,
                      error := some (classify e) }
      else
        Except.ok { jsonrpc := some "2.0", id := some i, result := none,
                    error := some ErrCode.METHOD_NOT_FOUND }

/-- One element of a decoded batch array: either a JSON object or some other
JSON value, whose subscripting by id raises TypeError. -/
inductive BodyPart where
  | obj (r : RawReq)
  | nonObj
deriving DecidableEq, Repr

/-- The decoded request body seen by api_endpoint: a single object, an array
for batching, another JSON value, or undecodable input. -/
inductive ReqBody where
  | single (r : RawReq)
  | batch (parts : List BodyPart)
  | nonContainer
  | malformed

/-- What api_endpoint sends back: one response object or an array of them. -/
inductive ApiOut where
  | one (r : Response)
  | many (rs : List Response)
deriving DecidableEq, Repr

/-- The bare error response api_endpoint builds for invalid requests. -/
def invalid_request_response : Response :=
  { jsonrpc := none, id := none, result := none, error := some ErrCode.INVALID_REQUEST }

/-- Processing of one batch element: subscripting a non-object raises
TypeError before process_json can do anything. -/
def process_part (exec : String → Option JVal → Except PyErr JVal) :
    BodyPart → Except PyErr Response
  | BodyPart.obj r => process_json exec r
  | BodyPart.nonObj => Except.error PyErr.typeError

/-- api_endpoint (handles.py lines 107-131): a list body is processed
element-wise into a response array; a dict body produces one response; any
other decoded value gets the INVALID_REQUEST response; undecodable input
gets PARSE_ERROR. An exception escaping process_json (or the batch
comprehension) is caught by the final generic handler, which replaces the
whole output with the single INVALID_REQUEST response. -/
def api_endpoint (exec : String → Option JVal → Except PyErr JVal) :
    ReqBody → ApiOut
  | ReqBody.malformed =>
    ApiOut.one { jsonrpc := none, id := none, result := none, error := some ErrCode.PARSE_ERROR }
  | ReqBody.nonContainer => ApiOut.one invalid_request_response
  | ReqBody.single r =>
    match process_json exec r with
    | Except.ok resp => ApiOut.one resp
    | Except.error _ => ApiOut.one invalid_request_response
  | ReqBody.batch parts =>
    match exceptMapList (process_part exec) parts with
    | Except.ok resps => ApiOut.many resps
    | Except.error _ => ApiOut.one invalid_request_response

/-- Modelled from the spec: delete_channel_comment_by_id is imported by the
dispatcher but its definition is not among the given sources; per spec
section 4.3 the mutation phase submits a delete-by-id scoped to the given
channel and reports boolean success. -/
def delete_channel_comment_by_id (store : List Comment)
    (comment_id channel_id : String) : List Comment × Bool :=
  let remaining := store.filter (fun c =>
    !(c.comment_id == comment_id && c.channel_id == some channel_id))
  (remaining, remaining.length != store.length)

/-- The observable outcome of the delete gateway: the store after the call,
the units of work submitted to the single writer, and the reported result. -/
structure GatewayOutcome where
  store : List Comment
  submitted : List (String × String)
  deleted : Bool
deriving DecidableEq, Repr

/-- delete_comment_if_authorized (handles.py lines 56-63), with the opaque
authenticity predicate is_authentic_delete_signal abstracted by its boolean
outcome. On a false outcome the function returns deleted = False before
anything is spawned on the comment scheduler; only on true does it submit
the delete query to the writer and await it. -/
def delete_comment_if_authorized (authorized : Bool) (store : List Comment)
    (comment_id channel_name channel_id signature : String) : GatewayOutcome :=
  if !authorized then { store := store, submitted := [], deleted := false }
  else
    let res := delete_channel_comment_by_id store comment_id channel_id
    { store := res.1, submitted := [(comment_id, channel_id)], deleted := res.2 }

/-! Helper lemmas about the sorting and pagination arithmetic. -/

theorem length_insert_desc (c : Comment) (l : List Comment) :
    (insert_desc c l).length = l.length + 1 := by
  induction l with
  | nil => rfl
  | cons d ds ih =>
    unfold insert_desc
    split
    · simp
    · simp [ih]

theorem length_order_by (l : List Comment) :
    (order_by_timestamp_desc l).length = l.length := by
  induction l with
  | nil => rfl
  | cons c cs ih =>
    simp only [order_by_timestamp_desc, List.foldr] at ih ⊢
    rw [length_insert_desc, ih]
    simp

theorem le_ceil_mul (t ps : Nat) (hps : 0 < ps) :
    t ≤ ((t + ps - 1) / ps) * ps := by
  rw [Nat.mul_comm]
  have e := Nat.div_add_mod (t + ps - 1) ps
  have hm : (t + ps - 1) % ps < ps := Nat.mod_lt _ hps
  omega

theorem ceil_div_eq (t ps : Nat) (hps : 0 < ps) :
    (((t + ps - 1) / ps : Nat) : Int) = Int.ceil ((t : ℚ) / (ps : ℚ)) := by
  have hq : (0 : ℚ) < (ps : ℚ) := by exact_mod_cast hps
  have h1 : t ≤ ((t + ps - 1) / ps) * ps := le_ceil_mul t ps hps
  have h2 : ((t + ps - 1) / ps) * ps ≤ t + ps - 1 := Nat.div_mul_le_self _ _
  have h2q : (((t + ps - 1) / ps : Nat) : ℚ) * (ps : ℚ) ≤ (t : ℚ) + (ps : ℚ) - 1 := by
    have hcast : (((((t + ps - 1) / ps) * ps : Nat)) : ℚ) ≤ ((t + ps - 1 : ℕ) : ℚ) := by
      exact_mod_cast h2
    rw [Nat.cast_mul, Nat.cast_sub (by omega), Nat.cast_add] at hcast
    simpa using hcast
  symm
  rw [Int.ceil_eq_iff]
  constructor
  · show ((((t + ps - 1) / ps : Nat) : ℤ) : ℚ) - 1 < (t : ℚ) / (ps : ℚ)
    rw [Int.cast_natCast, lt_div_iff₀ hq]
    nlinarith [hq, h2q]
  · show (t : ℚ) / (ps : ℚ) ≤ ((((t + ps - 1) / ps : Nat) : ℤ) : ℚ)
    rw [Int.cast_natCast, div_le_iff₀ hq]
    exact_mod_cast h1

/-! Claim theorems. -/

/-- C2: for every query through comment_list with page_size greater than
zero (and a 1-indexed page, with the parent_id argument not truthy since a
truthy one raises, see C5), the returned envelope satisfies
total_pages = ceil(total_items / page_size); the envelope echoes the
1-indexed page number; and requesting a page greater than total_pages
returns an envelope with zero items rather than raising an error. -/
theorem pagination_arithmetic (store : List Comment) (channels : List Channel)
    (claim_id parent_id : Option String) (top_level : Bool)
    (exclude_mode : Option String) (page page_size : Nat)
    (expressions : Option (Comment → Bool))
    (select_fields exclude_fields : Option (List String))
    (hps : 0 < page_size) (hpage : 1 ≤ page)
    (hpar : truthyStr parent_id = false) :
    ∃ env, comment_list store channels claim_id parent_id top_level
        exclude_mode page page_size expressions select_fields exclude_fields
        = Except.ok env ∧
      env.page = page ∧
      ((env.total_pages : Int) = Int.ceil ((env.total_items : ℚ) / (page_size : ℚ))) ∧
      (env.total_pages < page → env.items = []) := by
  refine ⟨build_envelope store channels claim_id top_level exclude_mode page
    page_size expressions select_fields exclude_fields, ?_, rfl, ?_, ?_⟩
  · unfold comment_list
    rw [hpar]
    simp [Nat.pos_iff_ne_zero.mp hps]
  · exact ceil_div_eq _ page_size hps
  · intro hlt
    have hlt2 : ((store.filter (matches_filters claim_id top_level exclude_mode
        expressions)).length + page_size - 1) / page_size < page := hlt
    show (((order_by_timestamp_desc (store.filter (matches_filters claim_id
      top_level exclude_mode expressions))).drop ((page - 1) * page_size)).take
        page_size).map
      (item_for channels (projected_keys select_fields exclude_fields)) = []
    have hdrop : (order_by_timestamp_desc (store.filter (matches_filters
        claim_id top_level exclude_mode expressions))).drop
          ((page - 1) * page_size) = [] := by
      apply List.drop_eq_nil_of_le
      rw [length_order_by]
      calc (store.filter (matches_filters claim_id top_level exclude_mode
            expressions)).length
          ≤ (((store.filter (matches_filters claim_id top_level exclude_mode
            expressions)).length + page_size - 1) / page_size) * page_size :=
            le_ceil_mul _ page_size hps
        _ ≤ (page - 1) * page_size := by
            apply Nat.mul_le_mul_right
            omega
    rw [hdrop]
    simp

/-- C2 witness: the theorem instantiated at an empty store with
page = 1, page_size = 50. -/
theorem pagination_arithmetic_witness :
    (0 < 50 ∧ 1 ≤ 1 ∧ truthyStr none = false) ∧
    ∃ env, comment_list [] [] none none false none 1 50 none none none
        = Except.ok env ∧
      env.page = 1 ∧
      ((env.total_pages : Int) = Int.ceil ((env.total_items : ℚ) / (50 : ℚ))) ∧
      (env.total_pages < 1 → env.items = []) :=
  ⟨⟨by decide, by decide, by decide⟩,
    pagination_arithmetic [] [] none none false none 1 50 none none none
      (by decide) (by decide) (by decide)⟩

/-- C4: the claim says get_comments_by_id([]) returns a page envelope with
page_size 0, total_items 0 and total_pages 0 without failing; the code
instead raises ZeroDivisionError, because the call sets
page_size = len(comment_ids) = 0 and comment_list computes
math.ceil(total / page_size). -/
theorem get_comments_by_id_empty_raises (store : List Comment)
    (channels : List Channel) :
    get_comments_by_id store channels [] = Except.error PyErr.zeroDivisionError := rfl

/-- C5: the claim says a truthy parent_id argument makes comment_list apply
an exact-match parent filter and return without raising; the code instead
evaluates Comment.ParentId, an attribute that does not exist on the Comment
model (the field is named parent), so every such call raises
AttributeError and no filtering happens. -/
theorem parent_id_filter_attribute_error (store : List Comment)
    (channels : List Channel) (claim_id parent_id : Option String)
    (top_level : Bool) (exclude_mode : Option String) (page page_size : Nat)
    (expressions : Option (Comment → Bool))
    (select_fields exclude_fields : Option (List String))
    (hpar : truthyStr parent_id = true) :
    comment_list store channels claim_id parent_id top_level exclude_mode
      page page_size expressions select_fields exclude_fields
      = Except.error PyErr.attributeError := by
  unfold comment_list
  rw [hpar]
  simp

/-- C5 witness: a concrete call with parent_id = "c1" raises. -/
theorem parent_id_filter_attribute_error_witness :
    truthyStr (some "c1") = true ∧
    comment_list [] [] none (some "c1") false none 1 50 none none none
      = Except.error PyErr.attributeError :=
  ⟨by decide,
    parent_id_filter_attribute_error [] [] none (some "c1") false none 1 50
      none none none (by decide)⟩

/-- C6: when the external authenticity predicate reports false, the delete
gateway performs no mutation (the store is returned unchanged), submits no
unit of work to the writer, and reports the normal result deleted = false. -/
theorem delete_unauthorized_noop (store : List Comment)
    (comment_id channel_name channel_id signature : String) :
    delete_comment_if_authorized false store comment_id channel_name
        channel_id signature
      = { store := store, submitted := [], deleted := false } := rfl

/-- C9: whenever comment_list returns an envelope, the envelope carries the
extra has_hidden_comments key, and its value is true exactly when the
exclude_mode argument is the string hidden. -/
theorem has_hidden_comments_flag (store : List Comment)
    (channels : List Channel) (claim_id parent_id : Option String)
    (top_level : Bool) (exclude_mode : Option String) (page page_size : Nat)
    (expressions : Option (Comment → Bool))
    (select_fields exclude_fields : Option (List String)) (env : Envelope)
    (h : comment_list store channels claim_id parent_id top_level exclude_mode
      page page_size expressions select_fields exclude_fields = Except.ok env) :
    env.has_hidden_comments = true ↔ exclude_mode = some "hidden" := by
  unfold comment_list at h
  split at h
  · exact absurd h (by simp)
  · split at h
    · exact absurd h (by simp)
    · cases Except.ok.inj h
      show (build_envelope store channels claim_id top_level exclude_mode page
        page_size expressions select_fields exclude_fields).has_hidden_comments
          = true ↔ exclude_mode = some "hidden"
      unfold build_envelope
      cases exclude_mode with
      | none => simp
      | some s => simp

/-- The envelope comment_list returns on an empty store with page_size 1. -/
def empty_env_one : Envelope :=
  { page := 1
    page_size := 1
    total_pages := 0
    total_items := 0
    items := []
    has_hidden_comments := false }

/-- C9 witness: the theorem instantiated at an empty store with
exclude_mode = none. -/
theorem has_hidden_comments_flag_witness :
    (comment_list [] [] none none false none 1 1 none none none
      = Except.ok empty_env_one) ∧
    (empty_env_one.has_hidden_comments = true ↔
      (none : Option String) = some "hidden") :=
  ⟨rfl,
    has_hidden_comments_flag [] [] none none false none 1 1 none none none
      empty_env_one rfl⟩

/-- The key-set formula asserted by the spec for projection: (registry keys
minus excluded) intersected with included, where an absent exclusion list
excludes nothing and an absent inclusion list includes every registry key.
Stated from the spec words, to be compared with selected_fields as the
code computes it. -/
def spec_projection_keys (select_fields exclude_fields : Option (List String)) :
    List String :=
  (FIELDS_KEYS.filter (fun k => !(exclude_fields.getD []).contains k)).filter
    (fun k => (select_fields.getD FIELDS_KEYS).contains k)

theorem exclude_step_eq (ex : Option (List String)) :
    exclude_step ex = FIELDS_KEYS.filter (fun f => !(ex.getD []).contains f) := by
  match ex with
  | none => decide
  | some [] => decide
  | some (x :: xs) => simp [exclude_step, truthyList]

theorem selected_fields_eq_spec (sel ex : Option (List String))
    (hsel : sel = none ∨ sel.getD [] ≠ []) :
    selected_fields sel ex = spec_projection_keys sel ex := by
  match sel, hsel with
  | none, _ =>
    unfold selected_fields spec_projection_keys truthyList
    rw [exclude_step_eq]
    simp only [Bool.false_eq_true, if_false, Option.getD]
    symm
    apply List.filter_eq_self.mpr
    intro a ha
    exact List.elem_eq_true_of_mem (List.mem_of_mem_filter ha)
  | some s, hsel =>
    have hs : s ≠ [] := by
      rcases hsel with h | h
      · cases h
      · simpa using h
    match s, hs with
    | x :: xs, _ =>
      unfold selected_fields spec_projection_keys truthyList
      rw [exclude_step_eq]
      simp

theorem item_for_keys (channels : List Channel) (c : Comment) :
    ∀ keys : List String,
      (item_for channels keys c).map Prod.fst
        = keys.filter (fun k => !(fieldValue channels c k == JVal.null))
  | [] => rfl
  | k :: ks => by
    have ih := item_for_keys channels c ks
    simp only [item_for, clean, List.map_cons, List.filter_cons] at ih ⊢
    cases hv : !(fieldValue channels c k == JVal.null) with
    | false => simpa [hv] using ih
    | true => simpa [hv] using ih

theorem comment_list_ok_inv (store : List Comment) (channels : List Channel)
    (claim_id parent_id : Option String) (top_level : Bool)
    (exclude_mode : Option String) (page page_size : Nat)
    (expressions : Option (Comment → Bool))
    (select_fields exclude_fields : Option (List String)) (env : Envelope)
    (h : comment_list store channels claim_id parent_id top_level exclude_mode
      page page_size expressions select_fields exclude_fields = Except.ok env) :
    env = build_envelope store channels claim_id top_level exclude_mode page
      page_size expressions select_fields exclude_fields := by
  unfold comment_list at h
  split at h
  · exact absurd h (by simp)
  · split at h
    · exact absurd h (by simp)
    · exact (Except.ok.inj h).symm

/-- A store with one anonymous top-level comment, used by the C1
counterexample. -/
def cX : Comment :=
  { comment := "hello", channel_id := none, comment_id := "cx1",
    is_hidden := false, claim_id := "k1", parent_id := none, signature := none,
    signing_ts := none, timestamp := 100 }

/-- The envelope the C1 counterexample call returns. -/
def envX : Envelope :=
  { page := 1
    page_size := 50
    total_pages := 1
    total_items := 1
    items := [[("comment", JVal.s "hello"), ("comment_id", JVal.s "cx1"),
               ("is_hidden", JVal.b false), ("claim_id", JVal.s "k1"),
               ("timestamp", JVal.i 100)]]
    has_hidden_comments := false }

/-- C1 counterexample: with exclude_fields = ["comment"] and
select_fields = ["comment"] the claimed formula (registry keys minus
excluded) intersected with included is empty, so the claim says no key can
appear in a returned item; the code instead ends up with an empty attribute
list, falls back to selecting every Comment model column, and returns items
carrying keys such as claim_id. -/
theorem projection_keys_counterexample :
    (comment_list [cX] [] none none false none 1 50 none (some ["comment"])
        (some ["comment"]) = Except.ok envX) ∧
    envX.items.map (fun it => it.map Prod.fst)
      = [["comment", "comment_id", "is_hidden", "claim_id", "timestamp"]] ∧
    spec_projection_keys (some ["comment"]) (some ["comment"]) = [] ∧
    (["comment", "comment_id", "is_hidden", "claim_id", "timestamp"] : List String)
      ≠ [] :=
  ⟨rfl, rfl, by decide, by decide⟩

/-- C1 as amended: provided any supplied inclusion list is non-empty (an
empty one is ignored by the code) and the surviving key set is non-empty
(otherwise the code falls back to all Comment model columns), every item
returned by comment_list carries exactly the keys (registry keys minus
excluded) intersected with included, minus the keys whose stored value for
that row was null. -/
theorem projection_keys_amended (store : List Comment) (channels : List Channel)
    (claim_id parent_id : Option String) (top_level : Bool)
    (exclude_mode : Option String) (page page_size : Nat)
    (expressions : Option (Comment → Bool))
    (select_fields exclude_fields : Option (List String)) (env : Envelope)
    (hsel : select_fields = none ∨ select_fields.getD [] ≠ [])
    (hne : selected_fields select_fields exclude_fields ≠ [])
    (h : comment_list store channels claim_id parent_id top_level exclude_mode
      page page_size expressions select_fields exclude_fields = Except.ok env) :
    ∀ item ∈ env.items, ∃ c : Comment,
      item.map Prod.fst
        = (spec_projection_keys select_fields exclude_fields).filter
            (fun k => !(fieldValue channels c k == JVal.null)) := by
  have henv := comment_list_ok_inv store channels claim_id parent_id top_level
    exclude_mode page page_size expressions select_fields exclude_fields env h
  subst henv
  intro item hitem
  simp only [build_envelope, List.mem_map] at hitem
  obtain ⟨c, hc, hitemeq⟩ := hitem
  refine ⟨c, ?_⟩
  rw [← hitemeq, item_for_keys]
  have hkeys : projected_keys select_fields exclude_fields
      = spec_projection_keys select_fields exclude_fields := by
    have hfs : (selected_fields select_fields exclude_fields).isEmpty = false := by
      cases hq : (selected_fields select_fields exclude_fields).isEmpty
      · rfl
      · exact absurd (List.isEmpty_iff.mp hq) hne
    unfold projected_keys
    rw [hfs]
    simp only [Bool.false_eq_true, if_false]
    exact selected_fields_eq_spec _ _ hsel
  rw [hkeys]

/-- The inclusion list and store used by the C1 amended witness. -/
def selW : Option (List String) := some ["comment_id", "parent_id"]

/-- The comment row used by the C1 amended witness. -/
def cW : Comment :=
  { comment := "w", channel_id := none, comment_id := "cw1",
    is_hidden := false, claim_id := "kw", parent_id := none, signature := none,
    signing_ts := none, timestamp := 5 }

/-- The envelope the C1 amended witness call returns. -/
def envW : Envelope :=
  { page := 1
    page_size := 50
    total_pages := 1
    total_items := 1
    items := [[("comment_id", JVal.s "cw1")]]
    has_hidden_comments := false }

/-- C1 witness: the amended theorem instantiated at a one-comment store with
select_fields = ["comment_id", "parent_id"]. -/
theorem projection_keys_amended_witness :
    ((selW = none ∨ selW.getD [] ≠ []) ∧ selected_fields selW none ≠ [] ∧
      comment_list [cW] [] none none false none 1 50 none selW none
        = Except.ok envW) ∧
    (∀ item ∈ envW.items, ∃ c : Comment,
      item.map Prod.fst = (spec_projection_keys selW none).filter
        (fun k => !(fieldValue [] c k == JVal.null))) :=
  ⟨⟨by decide, by decide, rfl⟩,
    projection_keys_amended [cW] [] none none false none 1 50 none selW none
      envW (by decide) (by decide) rfl⟩

/-- The top-level comment of the C3 scenario: claim k1, timestamp 100. -/
def cA3 : Comment :=
  { comment := "first", channel_id := none, comment_id := "c1",
    is_hidden := false, claim_id := "k1", parent_id := none, signature := none,
    signing_ts := none, timestamp := 100 }

/-- The reply of the C3 scenario: reply to c1, claim k1, timestamp 200. -/
def cB3 : Comment :=
  { comment := "second", channel_id := none, comment_id := "c2",
    is_hidden := false, claim_id := "k1", parent_id := some "c1",
    signature := none, signing_ts := none, timestamp := 200 }

/-- What get_comment_ids(claim_id=k1, flattened=true) actually returns on
the C3 store. -/
def flat3 : FlatEnvelope :=
  { page := 1
    page_size := 50
    total_pages := 1
    total_items := 1
    has_hidden_comments := false
    items := [JVal.s "c1"]
    replies := [(JVal.s "c1", JVal.null)] }

/-- C3 counterexample: on the scenario store the claim says
get_comment_ids(claim_id=k1, flattened=true) yields items = [c2, c1]; the
code passes top_level = (parent_id is None) to comment_list, so the reply
c2 is filtered out and items is [c1] only. -/
theorem get_comment_ids_flattened_counterexample :
    (get_comment_ids [cA3, cB3] [] (some "k1") none 1 50 true
      = Except.ok (Sum.inr flat3)) ∧
    flat3.items ≠ [JVal.s "c2", JVal.s "c1"] :=
  ⟨rfl, by decide⟩

/-- C3 as amended: because get_comment_ids forces a top-level-only filter
whenever parent_id is None, the flattened call on the scenario store
returns only the top-level comment: items = [c1] and
replies = [(c1, null)]. -/
theorem get_comment_ids_flattened_amended :
    get_comment_ids [cA3, cB3] [] (some "k1") none 1 50 true
      = Except.ok (Sum.inr flat3) ∧
    flat3.items = [JVal.s "c1"] ∧
    flat3.replies = [(JVal.s "c1", JVal.null)] :=
  ⟨rfl, rfl, rfl⟩

/-- C7 counterexample: on an empty store, get_comment fails with IndexError
(list.pop() on the empty items list) rather than a NotFound-class error,
and the exception classification of the dispatcher surfaces it as INTERNAL,
not as INVALID_PARAMS (and there is no dedicated not-found code in the
taxonomy). -/
theorem get_comment_notfound_counterexample :
    (get_comment [] [] "c0" = Except.error PyErr.indexError) ∧
    classify PyErr.indexError = ErrCode.INTERNAL ∧
    ErrCode.INTERNAL ≠ ErrCode.INVALID_PARAMS :=
  ⟨rfl, rfl, by decide⟩

/-- C7 as amended: when no stored row matches the requested comment_id,
get_comment raises IndexError, and the dispatcher surfaces any such
handler failure as the INTERNAL error code (only TypeError and ValueError
map to INVALID_PARAMS). -/
theorem get_comment_notfound_amended (store : List Comment)
    (channels : List Channel) (cid : String)
    (hmiss : store.filter (fun c => c.comment_id == cid) = []) :
    get_comment store channels cid = Except.error PyErr.indexError ∧
    (∀ (exec : String → Option JVal → Except PyErr JVal) (i : JVal)
        (m : String) (p : Option JVal),
      METHODS_NAMES.contains m = true →
      exec m p = Except.error PyErr.indexError →
      process_json exec { id := some i, method := some m, params := p }
        = Except.ok { jsonrpc := some "2.0", id := some i, result := none,
                      error := some ErrCode.INTERNAL }) := by
  constructor
  · have hrows : store.filter (matches_filters none false none
        (some (fun c => c.comment_id == cid))) = [] := by
      have hcg : store.filter (matches_filters none false none
          (some (fun c => c.comment_id == cid)))
          = store.filter (fun c => c.comment_id == cid) :=
        List.filter_congr (fun a _ => by simp [matches_filters, truthyStr])
      rw [hcg, hmiss]
    have hitems : (build_envelope store channels none false none 1 1
        (some (fun c => c.comment_id == cid)) none none).items = [] := by
      simp only [build_envelope]
      rw [hrows]
      rfl
    have hcl : comment_list store channels none none false none 1 1
        (some (fun c => c.comment_id == cid)) none none
        = Except.ok (build_envelope store channels none false none 1 1
          (some (fun c => c.comment_id == cid)) none none) := by
      unfold comment_list
      simp [truthyStr]
    unfold get_comment
    rw [hcl]
    simp [hitems]
  · intro exec i m p hm he
    simp only [process_json, hm, he]
    rfl

/-- C7 witness: the amended theorem instantiated at the empty store. -/
theorem get_comment_notfound_amended_witness :
    (List.filter (fun c => c.comment_id == "cw0") ([] : List Comment) = []) ∧
    (get_comment [] [] "cw0" = Except.error PyErr.indexError ∧
      (∀ (exec : String → Option JVal → Except PyErr JVal) (i : JVal)
          (m : String) (p : Option JVal),
        METHODS_NAMES.contains m = true →
        exec m p = Except.error PyErr.indexError →
        process_json exec { id := some i, method := some m, params := p }
          = Except.ok { jsonrpc := some "2.0", id := some i, result := none,
                        error := some ErrCode.INTERNAL })) :=
  ⟨rfl, get_comment_notfound_amended [] [] "cw0" rfl⟩

theorem process_json_ok (exec : String → Option JVal → Except PyErr JVal)
    (r : RawReq) (hid : r.id.isSome = true) (hm : r.method.isSome = true) :
    ∃ resp, process_json exec r = Except.ok resp ∧ resp.id = r.id := by
  match h1 : r.id with
  | none => rw [h1] at hid; cases hid
  | some i =>
    match h2 : r.method with
    | none => rw [h2] at hm; cases hm
    | some m =>
      unfold process_json
      rw [h1, h2]
      by_cases hc : METHODS_NAMES.contains m = true
      · simp only [hc, if_true]
        match exec m r.params with
        | Except.ok v => exact ⟨_, rfl, rfl⟩
        | Except.error e => exact ⟨_, rfl, rfl⟩
      · simp only [Bool.not_eq_true] at hc
        simp only [hc, Bool.false_eq_true, if_false]
        exact ⟨_, rfl, rfl⟩

theorem exceptMapList_ok (f : α → Except PyErr β) (P : α → β → Prop) :
    ∀ l : List α, (∀ a ∈ l, ∃ b, f a = Except.ok b ∧ P a b) →
    ∃ bs, exceptMapList f l = Except.ok bs ∧ bs.length = l.length ∧
      ∀ i (h1 : i < bs.length) (h2 : i < l.length),
        P (l.get ⟨i, h2⟩) (bs.get ⟨i, h1⟩)
  | [], _ => ⟨[], rfl, rfl, fun i h1 _ => absurd h1 (by simp)⟩
  | a :: as, h => by
    obtain ⟨b, hb, hPb⟩ := h a (List.mem_cons_self a as)
    obtain ⟨bs, hbs, hlen, hP⟩ :=
      exceptMapList_ok f P as (fun x hx => h x (List.mem_cons_of_mem a hx))
    refine ⟨b :: bs, ?_, by simp [hlen], ?_⟩
    · unfold exceptMapList
      rw [hb, hbs]
    · intro i h1 h2
      match i with
      | 0 => exact hPb
      | Nat.succ j => exact hP j (by simpa using h1) (by simpa using h2)

theorem exceptMapList_error (f : α → Except PyErr β) :
    ∀ l : List α, (∃ a ∈ l, ∃ e, f a = Except.error e) →
    ∃ e, exceptMapList f l = Except.error e
  | [], h => absurd h (by simp)
  | a :: as, h => by
    match ha : f a with
    | Except.error e =>
      refine ⟨e, ?_⟩
      unfold exceptMapList
      rw [ha]
    | Except.ok b =>
      obtain ⟨x, hx, e, he⟩ := h
      have hxas : x ∈ as := by
        cases List.mem_cons.mp hx with
        | inl heq =>
          subst heq
          rw [ha] at he
          cases he
        | inr h2 => exact h2
      obtain ⟨e2, he2⟩ := exceptMapList_error f as ⟨x, hxas, e, he⟩
      refine ⟨e2, ?_⟩
      unfold exceptMapList
      rw [ha, he2]

/-- C8: a batch of well-formed request envelopes (objects carrying id and
method entries) produces, without any envelope-level failure, a response
array of the same length whose entry at every index carries the same id as
the request at that index; a single well-formed envelope produces a single
response carrying its id. -/
theorem batch_ordering (exec : String → Option JVal → Except PyErr JVal)
    (l : List RawReq)
    (hl : ∀ r ∈ l, r.id.isSome = true ∧ r.method.isSome = true)
    (rq : RawReq) (hid : rq.id.isSome = true) (hm : rq.method.isSome = true) :
    (∃ resps, api_endpoint exec (ReqBody.batch (l.map BodyPart.obj))
        = ApiOut.many resps ∧
      resps.length = l.length ∧
      ∀ i (h1 : i < resps.length) (h2 : i < l.length),
        (resps.get ⟨i, h1⟩).id = (l.get ⟨i, h2⟩).id) ∧
    (∃ resp, api_endpoint exec (ReqBody.single rq) = ApiOut.one resp ∧
      resp.id = rq.id) := by
  constructor
  · have hall : ∀ p ∈ l.map BodyPart.obj, ∃ resp,
        process_part exec p = Except.ok resp ∧
          ∃ r : RawReq, p = BodyPart.obj r ∧ resp.id = r.id := by
      intro p hp
      obtain ⟨r, hr, hpr⟩ := List.mem_map.mp hp
      obtain ⟨hrid, hrm⟩ := hl r hr
      obtain ⟨resp, hresp, hrespid⟩ := process_json_ok exec r hrid hrm
      exact ⟨resp, by rw [← hpr]; exact hresp, r, hpr.symm, hrespid⟩
    obtain ⟨resps, hmap, hlen, hP⟩ := exceptMapList_ok (process_part exec)
      (fun p resp => ∃ r : RawReq, p = BodyPart.obj r ∧ resp.id = r.id)
      (l.map BodyPart.obj) hall
    refine ⟨resps, ?_, by simpa using hlen, ?_⟩
    · simp only [api_endpoint]
      rw [hmap]
    · intro i h1 h2
      have h2m : i < (l.map BodyPart.obj).length := by simpa using h2
      obtain ⟨r, hobj, hrid⟩ := hP i h1 h2m
      have : (l.map BodyPart.obj).get ⟨i, h2m⟩ = BodyPart.obj (l.get ⟨i, h2⟩) := by
        simp [List.get_eq_getElem]
      rw [this] at hobj
      cases hobj
      exact hrid
  · obtain ⟨resp, hresp, hrespid⟩ := process_json_ok exec rq hid hm
    refine ⟨resp, ?_, hrespid⟩
    simp only [api_endpoint]
    rw [hresp]

/-- The batch used by the C8 witness. -/
def batchW : List RawReq :=
  [{ id := some (JVal.i 1), method := some "ping", params := none },
   { id := some (JVal.i 2), method := some "no_such_method", params := none }]

/-- The single request used by the C8 witness. -/
def reqW : RawReq :=
  { id := some (JVal.s "a"), method := some "delete_comment", params := none }

/-- An abstract handler outcome used by the C8 and C10 witnesses. -/
def execW : String → Option JVal → Except PyErr JVal :=
  fun _ _ => Except.ok JVal.null

/-- C8 witness: the theorem instantiated at a concrete two-element batch and
a concrete single request. -/
theorem batch_ordering_witness :
    ((∀ r ∈ batchW, r.id.isSome = true ∧ r.method.isSome = true) ∧
      reqW.id.isSome = true ∧ reqW.method.isSome = true) ∧
    ((∃ resps, api_endpoint execW (ReqBody.batch (batchW.map BodyPart.obj))
        = ApiOut.many resps ∧
      resps.length = batchW.length ∧
      ∀ i (h1 : i < resps.length) (h2 : i < batchW.length),
        (resps.get ⟨i, h1⟩).id = (batchW.get ⟨i, h2⟩).id) ∧
    (∃ resp, api_endpoint execW (ReqBody.single reqW) = ApiOut.one resp ∧
      resp.id = reqW.id)) :=
  ⟨⟨by decide, by decide, by decide⟩,
    batch_ordering execW batchW (by decide) reqW (by decide) (by decide)⟩

/-- A batch element that is not an object carrying an id entry: a non-object
value, or an object whose id key is absent. -/
def bad_part : BodyPart → Bool
  | BodyPart.obj r => r.id.isNone
  | BodyPart.nonObj => true

theorem bad_part_errors (exec : String → Option JVal → Except PyErr JVal)
    (p : BodyPart) (hp : bad_part p = true) :
    ∃ e, process_part exec p = Except.error e := by
  cases p with
  | nonObj => exact ⟨PyErr.typeError, rfl⟩
  | obj r =>
    have hr : r.id = none := by
      simpa [bad_part, Option.isNone_iff_eq_none] using hp
    refine ⟨PyErr.keyError, ?_⟩
    simp only [process_part, process_json]
    rw [hr]

/-- C10: a single request object lacking an id key yields the bare
INVALID_REQUEST error response with no id; and a batch containing at least
one element that is not an object with an id key yields that same single
response for the whole batch, not one response per element. -/
theorem invalid_envelope_single_response
    (exec : String → Option JVal → Except PyErr JVal) (r : RawReq)
    (hr : r.id = none) (parts : List BodyPart)
    (hbad : ∃ p ∈ parts, bad_part p = true) :
    api_endpoint exec (ReqBody.single r) = ApiOut.one invalid_request_response ∧
    api_endpoint exec (ReqBody.batch parts) = ApiOut.one invalid_request_response ∧
    invalid_request_response.id = none ∧
    invalid_request_response.error = some ErrCode.INVALID_REQUEST := by
  refine ⟨?_, ?_, rfl, rfl⟩
  · have hpj : process_json exec r = Except.error PyErr.keyError := by
      unfold process_json
      rw [hr]
    simp only [api_endpoint]
    rw [hpj]
  · obtain ⟨p, hp, hpbad⟩ := hbad
    obtain ⟨e, he⟩ := bad_part_errors exec p hpbad
    obtain ⟨e2, he2⟩ := exceptMapList_error (process_part exec) parts
      ⟨p, hp, e, he⟩
    simp only [api_endpoint]
    rw [he2]

/-- The id-less request used by the C10 witness. -/
def reqBad : RawReq := { id := none, method := some "ping", params := none }

/-- The batch used by the C10 witness: one well-formed object followed by a
non-object element. -/
def partsBad : List BodyPart :=
  [BodyPart.obj { id := some (JVal.i 7), method := some "ping", params := none },
   BodyPart.nonObj]

/-- C10 witness: the theorem instantiated at a concrete id-less request and
a concrete batch containing a non-object element. -/
theorem invalid_envelope_single_response_witness :
    (reqBad.id = none ∧ (∃ p ∈ partsBad, bad_part p = true)) ∧
    (api_endpoint execW (ReqBody.single reqBad)
        = ApiOut.one invalid_request_response ∧
      api_endpoint execW (ReqBody.batch partsBad)
        = ApiOut.one invalid_request_response ∧
      invalid_request_response.id = none ∧
      invalid_request_response.error = some ErrCode.INVALID_REQUEST) :=
  ⟨⟨by decide, by decide⟩,
    invalid_envelope_single_response execW reqBad (by decide) partsBad
      (by decide)⟩

end CommentServer
